import Mathlib

/-!
Verification development for the CoachNova onboarding wizard
(src/pages/index.tsx). We give a shallow embedding of the wizard engine:
the gradient blending algorithm `computePreviewGradient`, the preview
text generation in `commitPreviewFromSliders`, the identity-step
`goNext` validation, the per-panel reset effect that runs when the
active step id changes, and the language-step progress formula.
JavaScript numbers are modelled as rationals (`ℚ`) for the gradient
arithmetic and as integers (`ℤ`) for the 1..10 slider values; JS
strings are Lean `String`s.
-/

/-! ### Gradient blending (`computePreviewGradient`, index.tsx lines 432-485)

The source normalizes the three weights to percentages (guarding the
divisor with `Math.max(0.0001, d + w + c)`), clamps percentages below
the 8% minimum segment up to exactly 8, and redistributes the remaining
budget proportionally among the unclamped parts; if every part was
below 8 it falls back to an even three-way split. We embed the three
adjusted segment widths; the color strings and stop rounding of the
final CSS string are presentation only. -/

/-- Minimum visible segment percentage (`const minSeg = 8`). -/
def minSeg : ℚ := 8

/-- Division guard: `const total = Math.max(0.0001, d + w + c)`. -/
def gradTotal (d w c : ℚ) : ℚ := max (1/10000) (d + w + c)

/-- First normalized percentage: `let p1 = (d / total) * 100`. -/
def gradP1 (d w c : ℚ) : ℚ := d / gradTotal d w c * 100

/-- Second normalized percentage: `let p2 = (w / total) * 100`. -/
def gradP2 (d w c : ℚ) : ℚ := w / gradTotal d w c * 100

/-- Third normalized percentage: `let p3 = (c / total) * 100`. -/
def gradP3 (d w c : ℚ) : ℚ := c / gradTotal d w c * 100

/-- Sum of the parts not clamped in the first pass
(`flexibleTotal += parts[i]` for every `parts[i] ≥ minSeg`). -/
def flexTotalOf (p1 p2 p3 : ℚ) : ℚ :=
  (if p1 < minSeg then 0 else p1) + (if p2 < minSeg then 0 else p2) +
    (if p3 < minSeg then 0 else p3)

/-- Budget left after clamping (`remaining -= minSeg` per clamped part,
starting from `let remaining = 100`). -/
def remainingOf (p1 p2 p3 : ℚ) : ℚ :=
  100 - ((if p1 < minSeg then minSeg else 0) + (if p2 < minSeg then minSeg else 0) +
    (if p3 < minSeg then minSeg else 0))

/-- `adjusted[0]` after both passes: 8 when clamped, the proportional
share of `remaining` otherwise; `100 / 3` on the even-split fallback. -/
def adjusted0 (p1 p2 p3 : ℚ) : ℚ :=
  if flexTotalOf p1 p2 p3 ≤ 0 then 100/3
  else if p1 < minSeg then minSeg
  else p1 / flexTotalOf p1 p2 p3 * remainingOf p1 p2 p3

/-- `adjusted[1]` after both passes. -/
def adjusted1 (p1 p2 p3 : ℚ) : ℚ :=
  if flexTotalOf p1 p2 p3 ≤ 0 then 100/3
  else if p2 < minSeg then minSeg
  else p2 / flexTotalOf p1 p2 p3 * remainingOf p1 p2 p3

/-- `adjusted[2]` after both passes. -/
def adjusted2 (p1 p2 p3 : ℚ) : ℚ :=
  if flexTotalOf p1 p2 p3 ≤ 0 then 100/3
  else if p3 < minSeg then minSeg
  else p3 / flexTotalOf p1 p2 p3 * remainingOf p1 p2 p3

/-- Final width of the first (directness) gradient segment. -/
def gradSeg0 (d w c : ℚ) : ℚ := adjusted0 (gradP1 d w c) (gradP2 d w c) (gradP3 d w c)

/-- Final width of the second (warmth) gradient segment. -/
def gradSeg1 (d w c : ℚ) : ℚ := adjusted1 (gradP1 d w c) (gradP2 d w c) (gradP3 d w c)

/-- Final width of the third (challenge) gradient segment. -/
def gradSeg2 (d w c : ℚ) : ℚ := adjusted2 (gradP1 d w c) (gradP2 d w c) (gradP3 d w c)

/-- The guard of the even-split fallback branch
(`if (flexibleTotal <= 0)` in the source). -/
def gradFallback (d w c : ℚ) : Prop :=
  flexTotalOf (gradP1 d w c) (gradP2 d w c) (gradP3 d w c) ≤ 0

instance (d w c : ℚ) : Decidable (gradFallback d w c) := by
  unfold gradFallback; infer_instance

/-- Cumulative stop after the first segment (`Math.round(adjusted[0])`). -/
def gradStop1 (d w c : ℚ) : ℤ := round (gradSeg0 d w c)

/-- Cumulative stop after the second segment
(`Math.round(adjusted[0] + adjusted[1])`). -/
def gradStop2 (d w c : ℚ) : ℤ := round (gradSeg0 d w c + gradSeg1 d w c)

/-! ### General properties of the adjusted segment widths -/

/-- Helper bound: a flexible (unclamped) part receives at least `184/25`
percent whenever `184/25 * F ≤ 8 * R`. -/
lemma flex_seg_lower (pi F R : ℚ) (hpi : 8 ≤ pi) (hF : 0 < F) (hR : 0 ≤ R)
    (hRF : 184/25 * F ≤ 8 * R) : 184/25 ≤ pi / F * R := by
  rw [div_mul_eq_mul_div, le_div_iff₀ hF]
  have h8 : 8 * R ≤ pi * R := mul_le_mul_of_nonneg_right hpi hR
  linarith


/-- Core case analysis on the clamp-and-redistribute pass: for
nonnegative parts summing to at most 100, the three adjusted widths sum
to exactly 100, each is at least `184/25 = 7.36`, and outside the
fallback branch every clamped part ends at exactly 8. -/
lemma adjusted_spec (p1 p2 p3 : ℚ) (h1 : 0 ≤ p1) (h2 : 0 ≤ p2) (h3 : 0 ≤ p3)
    (hs : p1 + p2 + p3 ≤ 100) :
    adjusted0 p1 p2 p3 + adjusted1 p1 p2 p3 + adjusted2 p1 p2 p3 = 100 ∧
    184/25 ≤ adjusted0 p1 p2 p3 ∧ 184/25 ≤ adjusted1 p1 p2 p3 ∧
    184/25 ≤ adjusted2 p1 p2 p3 ∧
    (¬ flexTotalOf p1 p2 p3 ≤ 0 →
      (p1 < minSeg → adjusted0 p1 p2 p3 = minSeg) ∧
      (p2 < minSeg → adjusted1 p1 p2 p3 = minSeg) ∧
      (p3 < minSeg → adjusted2 p1 p2 p3 = minSeg)) := by
  by_cases c1 : p1 < minSeg <;> by_cases c2 : p2 < minSeg <;> by_cases c3 : p3 < minSeg
  · -- all three parts below the minimum: even-split fallback
    have hFval : flexTotalOf p1 p2 p3 = 0 := by
      unfold flexTotalOf; rw [if_pos c1, if_pos c2, if_pos c3]; ring
    have hFle : flexTotalOf p1 p2 p3 ≤ 0 := le_of_eq hFval
    have a0 : adjusted0 p1 p2 p3 = 100/3 := by unfold adjusted0; rw [if_pos hFle]
    have a1 : adjusted1 p1 p2 p3 = 100/3 := by unfold adjusted1; rw [if_pos hFle]
    have a2 : adjusted2 p1 p2 p3 = 100/3 := by unfold adjusted2; rw [if_pos hFle]
    refine ⟨?_, ?_, ?_, ?_, fun hcon => absurd hFle hcon⟩ <;>
      simp only [a0, a1, a2] <;> norm_num
  · -- p1, p2 clamped; p3 flexible
    have hp3 : (8:ℚ) ≤ p3 := not_lt.mp c3
    have hp3pos : (0:ℚ) < p3 := by linarith
    have hFval : flexTotalOf p1 p2 p3 = p3 := by
      unfold flexTotalOf; rw [if_pos c1, if_pos c2, if_neg c3]; ring
    have hRval : remainingOf p1 p2 p3 = 84 := by
      unfold remainingOf; rw [if_pos c1, if_pos c2, if_neg c3]; unfold minSeg; norm_num
    have hFne : ¬ flexTotalOf p1 p2 p3 ≤ 0 := by rw [hFval]; exact not_le.mpr hp3pos
    have a0 : adjusted0 p1 p2 p3 = minSeg := by unfold adjusted0; rw [if_neg hFne, if_pos c1]
    have a1 : adjusted1 p1 p2 p3 = minSeg := by unfold adjusted1; rw [if_neg hFne, if_pos c2]
    have a2 : adjusted2 p1 p2 p3 = 84 := by
      unfold adjusted2
      rw [if_neg hFne, if_neg c3, hFval, hRval, div_self (ne_of_gt hp3pos), one_mul]
    refine ⟨?_, ?_, ?_, ?_, fun _ => ⟨fun _ => a0, fun _ => a1, fun hcon => absurd hcon c3⟩⟩ <;>
      simp only [a0, a1, a2, minSeg] <;> norm_num
  · -- p1, p3 clamped; p2 flexible
    have hp2 : (8:ℚ) ≤ p2 := not_lt.mp c2
    have hp2pos : (0:ℚ) < p2 := by linarith
    have hFval : flexTotalOf p1 p2 p3 = p2 := by
      unfold flexTotalOf; rw [if_pos c1, if_neg c2, if_pos c3]; ring
    have hRval : remainingOf p1 p2 p3 = 84 := by
      unfold remainingOf; rw [if_pos c1, if_neg c2, if_pos c3]; unfold minSeg; norm_num
    have hFne : ¬ flexTotalOf p1 p2 p3 ≤ 0 := by rw [hFval]; exact not_le.mpr hp2pos
    have a0 : adjusted0 p1 p2 p3 = minSeg := by unfold adjusted0; rw [if_neg hFne, if_pos c1]
    have a1 : adjusted1 p1 p2 p3 = 84 := by
      unfold adjusted1
      rw [if_neg hFne, if_neg c2, hFval, hRval, div_self (ne_of_gt hp2pos), one_mul]
    have a2 : adjusted2 p1 p2 p3 = minSeg := by unfold adjusted2; rw [if_neg hFne, if_pos c3]
    refine ⟨?_, ?_, ?_, ?_, fun _ => ⟨fun _ => a0, fun hcon => absurd hcon c2, fun _ => a2⟩⟩ <;>
      simp only [a0, a1, a2, minSeg] <;> norm_num
  · -- p1 clamped; p2, p3 flexible
    have hp2 : (8:ℚ) ≤ p2 := not_lt.mp c2
    have hp3 : (8:ℚ) ≤ p3 := not_lt.mp c3
    have hFpos : (0:ℚ) < p2 + p3 := by linarith
    have hFval : flexTotalOf p1 p2 p3 = p2 + p3 := by
      unfold flexTotalOf; rw [if_pos c1, if_neg c2, if_neg c3]; ring
    have hRval : remainingOf p1 p2 p3 = 92 := by
      unfold remainingOf; rw [if_pos c1, if_neg c2, if_neg c3]; unfold minSeg; norm_num
    have hFne : ¬ flexTotalOf p1 p2 p3 ≤ 0 := by rw [hFval]; exact not_le.mpr hFpos
    have a0 : adjusted0 p1 p2 p3 = minSeg := by unfold adjusted0; rw [if_neg hFne, if_pos c1]
    have a1 : adjusted1 p1 p2 p3 = p2 / (p2 + p3) * 92 := by
      unfold adjusted1; rw [if_neg hFne, if_neg c2, hFval, hRval]
    have a2 : adjusted2 p1 p2 p3 = p3 / (p2 + p3) * 92 := by
      unfold adjusted2; rw [if_neg hFne, if_neg c3, hFval, hRval]
    refine ⟨?_, ?_, ?_, ?_, fun _ => ⟨fun _ => a0, fun hcon => absurd hcon c2,
      fun hcon => absurd hcon c3⟩⟩
    · rw [a0, a1, a2]; unfold minSeg; field_simp; ring
    · rw [a0]; unfold minSeg; norm_num
    · rw [a1]; exact flex_seg_lower p2 (p2 + p3) 92 hp2 hFpos (by norm_num) (by linarith)
    · rw [a2]; exact flex_seg_lower p3 (p2 + p3) 92 hp3 hFpos (by norm_num) (by linarith)
  · -- p2, p3 clamped; p1 flexible
    have hp1 : (8:ℚ) ≤ p1 := not_lt.mp c1
    have hp1pos : (0:ℚ) < p1 := by linarith
    have hFval : flexTotalOf p1 p2 p3 = p1 := by
      unfold flexTotalOf; rw [if_neg c1, if_pos c2, if_pos c3]; ring
    have hRval : remainingOf p1 p2 p3 = 84 := by
      unfold remainingOf; rw [if_neg c1, if_pos c2, if_pos c3]; unfold minSeg; norm_num
    have hFne : ¬ flexTotalOf p1 p2 p3 ≤ 0 := by rw [hFval]; exact not_le.mpr hp1pos
    have a0 : adjusted0 p1 p2 p3 = 84 := by
      unfold adjusted0
      rw [if_neg hFne, if_neg c1, hFval, hRval, div_self (ne_of_gt hp1pos), one_mul]
    have a1 : adjusted1 p1 p2 p3 = minSeg := by unfold adjusted1; rw [if_neg hFne, if_pos c2]
    have a2 : adjusted2 p1 p2 p3 = minSeg := by unfold adjusted2; rw [if_neg hFne, if_pos c3]
    refine ⟨?_, ?_, ?_, ?_, fun _ => ⟨fun hcon => absurd hcon c1, fun _ => a1, fun _ => a2⟩⟩ <;>
      simp only [a0, a1, a2, minSeg] <;> norm_num
  · -- p2 clamped; p1, p3 flexible
    have hp1 : (8:ℚ) ≤ p1 := not_lt.mp c1
    have hp3 : (8:ℚ) ≤ p3 := not_lt.mp c3
    have hFpos : (0:ℚ) < p1 + p3 := by linarith
    have hFval : flexTotalOf p1 p2 p3 = p1 + p3 := by
      unfold flexTotalOf; rw [if_neg c1, if_pos c2, if_neg c3]; ring
    have hRval : remainingOf p1 p2 p3 = 92 := by
      unfold remainingOf; rw [if_neg c1, if_pos c2, if_neg c3]; unfold minSeg; norm_num
    have hFne : ¬ flexTotalOf p1 p2 p3 ≤ 0 := by rw [hFval]; exact not_le.mpr hFpos
    have a0 : adjusted0 p1 p2 p3 = p1 / (p1 + p3) * 92 := by
      unfold adjusted0; rw [if_neg hFne, if_neg c1, hFval, hRval]
    have a1 : adjusted1 p1 p2 p3 = minSeg := by unfold adjusted1; rw [if_neg hFne, if_pos c2]
    have a2 : adjusted2 p1 p2 p3 = p3 / (p1 + p3) * 92 := by
      unfold adjusted2; rw [if_neg hFne, if_neg c3, hFval, hRval]
    refine ⟨?_, ?_, ?_, ?_, fun _ => ⟨fun hcon => absurd hcon c1, fun _ => a1,
      fun hcon => absurd hcon c3⟩⟩
    · rw [a0, a1, a2]; unfold minSeg; field_simp; ring
    · rw [a0]; exact flex_seg_lower p1 (p1 + p3) 92 hp1 hFpos (by norm_num) (by linarith)
    · rw [a1]; unfold minSeg; norm_num
    · rw [a2]; exact flex_seg_lower p3 (p1 + p3) 92 hp3 hFpos (by norm_num) (by linarith)
  · -- p3 clamped; p1, p2 flexible
    have hp1 : (8:ℚ) ≤ p1 := not_lt.mp c1
    have hp2 : (8:ℚ) ≤ p2 := not_lt.mp c2
    have hFpos : (0:ℚ) < p1 + p2 := by linarith
    have hFval : flexTotalOf p1 p2 p3 = p1 + p2 := by
      unfold flexTotalOf; rw [if_neg c1, if_neg c2, if_pos c3]; ring
    have hRval : remainingOf p1 p2 p3 = 92 := by
      unfold remainingOf; rw [if_neg c1, if_neg c2, if_pos c3]; unfold minSeg; norm_num
    have hFne : ¬ flexTotalOf p1 p2 p3 ≤ 0 := by rw [hFval]; exact not_le.mpr hFpos
    have a0 : adjusted0 p1 p2 p3 = p1 / (p1 + p2) * 92 := by
      unfold adjusted0; rw [if_neg hFne, if_neg c1, hFval, hRval]
    have a1 : adjusted1 p1 p2 p3 = p2 / (p1 + p2) * 92 := by
      unfold adjusted1; rw [if_neg hFne, if_neg c2, hFval, hRval]
    have a2 : adjusted2 p1 p2 p3 = minSeg := by unfold adjusted2; rw [if_neg hFne, if_pos c3]
    refine ⟨?_, ?_, ?_, ?_, fun _ => ⟨fun hcon => absurd hcon c1, fun hcon => absurd hcon c2,
      fun _ => a2⟩⟩
    · rw [a0, a1, a2]; unfold minSeg; field_simp; ring
    · rw [a0]; exact flex_seg_lower p1 (p1 + p2) 92 hp1 hFpos (by norm_num) (by linarith)
    · rw [a1]; exact flex_seg_lower p2 (p1 + p2) 92 hp2 hFpos (by norm_num) (by linarith)
    · rw [a2]; unfold minSeg; norm_num
  · -- nothing clamped: all three parts flexible
    have hp1 : (8:ℚ) ≤ p1 := not_lt.mp c1
    have hp2 : (8:ℚ) ≤ p2 := not_lt.mp c2
    have hp3 : (8:ℚ) ≤ p3 := not_lt.mp c3
    have hFpos : (0:ℚ) < p1 + p2 + p3 := by linarith
    have hFval : flexTotalOf p1 p2 p3 = p1 + p2 + p3 := by
      unfold flexTotalOf; rw [if_neg c1, if_neg c2, if_neg c3]
    have hRval : remainingOf p1 p2 p3 = 100 := by
      unfold remainingOf; rw [if_neg c1, if_neg c2, if_neg c3]; norm_num
    have hFne : ¬ flexTotalOf p1 p2 p3 ≤ 0 := by rw [hFval]; exact not_le.mpr hFpos
    have a0 : adjusted0 p1 p2 p3 = p1 / (p1 + p2 + p3) * 100 := by
      unfold adjusted0; rw [if_neg hFne, if_neg c1, hFval, hRval]
    have a1 : adjusted1 p1 p2 p3 = p2 / (p1 + p2 + p3) * 100 := by
      unfold adjusted1; rw [if_neg hFne, if_neg c2, hFval, hRval]
    have a2 : adjusted2 p1 p2 p3 = p3 / (p1 + p2 + p3) * 100 := by
      unfold adjusted2; rw [if_neg hFne, if_neg c3, hFval, hRval]
    refine ⟨?_, ?_, ?_, ?_, fun _ => ⟨fun hcon => absurd hcon c1, fun hcon => absurd hcon c2,
      fun hcon => absurd hcon c3⟩⟩
    · rw [a0, a1, a2]; field_simp; ring
    · rw [a0]; exact flex_seg_lower p1 (p1 + p2 + p3) 100 hp1 hFpos (by norm_num) (by linarith)
    · rw [a1]; exact flex_seg_lower p2 (p1 + p2 + p3) 100 hp2 hFpos (by norm_num) (by linarith)
    · rw [a2]; exact flex_seg_lower p3 (p1 + p2 + p3) 100 hp3 hFpos (by norm_num) (by linarith)

/-- The division guard is strictly positive. -/
lemma gradTotal_pos (d w c : ℚ) : 0 < gradTotal d w c :=
  lt_of_lt_of_le (by norm_num) (le_max_left _ _)

/-- First percentage is nonnegative for a nonnegative weight. -/
lemma gradP1_nonneg (d w c : ℚ) (hd : 0 ≤ d) : 0 ≤ gradP1 d w c :=
  mul_nonneg (div_nonneg hd (gradTotal_pos d w c).le) (by norm_num)

/-- Second percentage is nonnegative for a nonnegative weight. -/
lemma gradP2_nonneg (d w c : ℚ) (hw : 0 ≤ w) : 0 ≤ gradP2 d w c :=
  mul_nonneg (div_nonneg hw (gradTotal_pos d w c).le) (by norm_num)

/-- Third percentage is nonnegative for a nonnegative weight. -/
lemma gradP3_nonneg (d w c : ℚ) (hc : 0 ≤ c) : 0 ≤ gradP3 d w c :=
  mul_nonneg (div_nonneg hc (gradTotal_pos d w c).le) (by norm_num)

/-- The three percentages never sum to more than 100 (the guard can only
enlarge the divisor). -/
lemma gradP_sum_le (d w c : ℚ) :
    gradP1 d w c + gradP2 d w c + gradP3 d w c ≤ 100 := by
  have ht := gradTotal_pos d w c
  have hle : d + w + c ≤ gradTotal d w c := le_max_right _ _
  have hsum : gradP1 d w c + gradP2 d w c + gradP3 d w c =
      (d + w + c) / gradTotal d w c * 100 := by
    unfold gradP1 gradP2 gradP3; ring
  rw [hsum]
  have h1 : (d + w + c) / gradTotal d w c ≤ 1 := (div_le_one ht).mpr hle
  linarith

/-- When the raw weights reach the epsilon guard, the three percentages
sum to exactly 100. -/
lemma gradP_sum_eq (d w c : ℚ) (hε : 1/10000 ≤ d + w + c) :
    gradP1 d w c + gradP2 d w c + gradP3 d w c = 100 := by
  have ht : gradTotal d w c = d + w + c := max_eq_right hε
  have hne : d + w + c ≠ 0 := ne_of_gt (lt_of_lt_of_le (by norm_num) hε)
  unfold gradP1 gradP2 gradP3
  rw [ht]
  field_simp
  ring

/-- C3 (amended): for every nonnegative input triple the three final
segment widths sum to exactly 100 and each is at least 7.36 percent;
outside the even-split fallback every percentage below 8 is clamped to
exactly 8. (The original bound of 8 for every segment fails: an
unclamped segment can be pulled below 8 by the redistribution, see the
counterexample at (8, 0, 92).) -/
theorem computePreviewGradient_widths (d w c : ℚ)
    (hd : 0 ≤ d) (hw : 0 ≤ w) (hc : 0 ≤ c) :
    gradSeg0 d w c + gradSeg1 d w c + gradSeg2 d w c = 100 ∧
    184/25 ≤ gradSeg0 d w c ∧ 184/25 ≤ gradSeg1 d w c ∧ 184/25 ≤ gradSeg2 d w c ∧
    (¬ gradFallback d w c →
      (gradP1 d w c < minSeg → gradSeg0 d w c = minSeg) ∧
      (gradP2 d w c < minSeg → gradSeg1 d w c = minSeg) ∧
      (gradP3 d w c < minSeg → gradSeg2 d w c = minSeg)) :=
  adjusted_spec (gradP1 d w c) (gradP2 d w c) (gradP3 d w c)
    (gradP1_nonneg d w c hd) (gradP2_nonneg d w c hw) (gradP3_nonneg d w c hc)
    (gradP_sum_le d w c)

/-- C3 witness: the amended statement evaluated at the concrete
triple (8, 0, 92). -/
theorem computePreviewGradient_widths_witness :
    (0:ℚ) ≤ 8 ∧ (0:ℚ) ≤ 0 ∧ (0:ℚ) ≤ 92 ∧
    (gradSeg0 8 0 92 + gradSeg1 8 0 92 + gradSeg2 8 0 92 = 100 ∧
      184/25 ≤ gradSeg0 8 0 92 ∧ 184/25 ≤ gradSeg1 8 0 92 ∧
      184/25 ≤ gradSeg2 8 0 92 ∧
      (¬ gradFallback 8 0 92 →
        (gradP1 8 0 92 < minSeg → gradSeg0 8 0 92 = minSeg) ∧
        (gradP2 8 0 92 < minSeg → gradSeg1 8 0 92 = minSeg) ∧
        (gradP3 8 0 92 < minSeg → gradSeg2 8 0 92 = minSeg))) :=
  ⟨by norm_num, by norm_num, by norm_num,
    computePreviewGradient_widths 8 0 92 (by norm_num) (by norm_num) (by norm_num)⟩

/-- C3 counterexample: the claim "each segment ends up ≥ 8" is false at
the nonnegative triple (8, 0, 92): the first segment is redistributed
down to 7.36 < 8. -/
theorem computePreviewGradient_seg_below_eight :
    gradSeg0 8 0 92 = 184/25 ∧ gradSeg0 8 0 92 < 8 := by
  constructor <;>
    norm_num [gradSeg0, adjusted0, gradP1, gradP2, gradP3, gradTotal,
      flexTotalOf, remainingOf, minSeg, max_def]

/-- C4 (amended): at the all-equal triple (1, 1, 1) all three segment
widths are exactly 100/3 ≈ 33.33 percent, but this is produced by the
proportional redistribution path: the normalized percentages are 100/3
each, none is below the 8 percent clamp, and the even-split fallback
branch is not taken. -/
theorem computePreviewGradient_one_one_one :
    gradSeg0 1 1 1 = 100/3 ∧ gradSeg1 1 1 1 = 100/3 ∧ gradSeg2 1 1 1 = 100/3 ∧
    ¬ gradFallback 1 1 1 := by
  refine ⟨?_, ?_, ?_, ?_⟩ <;>
    norm_num [gradSeg0, gradSeg1, gradSeg2, adjusted0, adjusted1, adjusted2,
      gradFallback, gradP1, gradP2, gradP3, gradTotal, flexTotalOf,
      remainingOf, minSeg, max_def]

/-- C4 counterexample: the claim says (1, 1, 1) goes through the
even-split fallback path because all parts are below the clamp; in fact
the normalized first percentage is 100/3 ≥ 8 and the fallback guard is
false. -/
theorem computePreviewGradient_one_one_one_not_fallback :
    (8:ℚ) ≤ gradP1 1 1 1 ∧ ¬ gradFallback 1 1 1 := by
  constructor <;>
    norm_num [gradFallback, gradP1, gradP2, gradP3, gradTotal, flexTotalOf,
      minSeg, max_def]

/-- C10: for nonnegative weights whose sum reaches the epsilon divisor
1/10000, some normalized percentage is at least 8 (they sum to 100 and
3 × 8 < 100), so the even-split fallback branch cannot run; conversely
the fallback branch runs only when the weight sum is below the epsilon
divisor. -/
theorem gradFallback_unreachable (d w c : ℚ)
    (hd : 0 ≤ d) (hw : 0 ≤ w) (hc : 0 ≤ c) :
    (1/10000 ≤ d + w + c →
      (8 ≤ gradP1 d w c ∨ 8 ≤ gradP2 d w c ∨ 8 ≤ gradP3 d w c) ∧
      ¬ gradFallback d w c) ∧
    (gradFallback d w c → d + w + c < 1/10000) := by
  have h1 := gradP1_nonneg d w c hd
  have h2 := gradP2_nonneg d w c hw
  have h3 := gradP3_nonneg d w c hc
  have key : ∀ hε : 1/10000 ≤ d + w + c,
      (8 ≤ gradP1 d w c ∨ 8 ≤ gradP2 d w c ∨ 8 ≤ gradP3 d w c) := by
    intro hε
    by_contra hcon
    push_neg at hcon
    have hsum := gradP_sum_eq d w c hε
    linarith [hcon.1, hcon.2.1, hcon.2.2]
  have flexpos : (8 ≤ gradP1 d w c ∨ 8 ≤ gradP2 d w c ∨ 8 ≤ gradP3 d w c) →
      ¬ gradFallback d w c := by
    intro hbig hfb
    unfold gradFallback flexTotalOf minSeg at hfb
    have i1 : (0:ℚ) ≤ if gradP1 d w c < 8 then 0 else gradP1 d w c := by
      split <;> linarith
    have i2 : (0:ℚ) ≤ if gradP2 d w c < 8 then 0 else gradP2 d w c := by
      split <;> linarith
    have i3 : (0:ℚ) ≤ if gradP3 d w c < 8 then 0 else gradP3 d w c := by
      split <;> linarith
    rcases hbig with hb | hb | hb
    · have : (if gradP1 d w c < 8 then (0:ℚ) else gradP1 d w c) = gradP1 d w c :=
        if_neg (not_lt.mpr hb)
      rw [this] at hfb; linarith
    · have : (if gradP2 d w c < 8 then (0:ℚ) else gradP2 d w c) = gradP2 d w c :=
        if_neg (not_lt.mpr hb)
      rw [this] at hfb; linarith
    · have : (if gradP3 d w c < 8 then (0:ℚ) else gradP3 d w c) = gradP3 d w c :=
        if_neg (not_lt.mpr hb)
      rw [this] at hfb; linarith
  refine ⟨fun hε => ⟨key hε, flexpos (key hε)⟩, fun hfb => ?_⟩
  by_contra hge
  push_neg at hge
  exact flexpos (key hge) hfb

/-- C10 witness: at (1, 1, 1) the weight sum 3 reaches the epsilon
divisor and the fallback branch is indeed not taken. -/
theorem gradFallback_unreachable_witness :
    (0:ℚ) ≤ 1 ∧ (1/10000 : ℚ) ≤ 1 + 1 + 1 ∧ ¬ gradFallback 1 1 1 :=
  ⟨by norm_num, by norm_num,
    ((gradFallback_unreachable 1 1 1 (by norm_num) (by norm_num)
      (by norm_num)).1 (by norm_num)).2⟩

/-! ### Preview text generation (`commitPreviewFromSliders`, index.tsx lines 492-540)

Slider values are integers in 1..10, modelled as `ℤ`. The message and
reflection strings below are copied byte-for-byte from the source
(including the typographic quotation marks U+201C/U+201D and the
apostrophes U+2019); the demo strings use the plain ASCII apostrophe,
written here as the escape `\x27`, exactly as the source template
literals do. -/

/-- Default message template (`let msg = ...`). -/
def defaultMsg : String :=
  "“Let’s get to the real issue. What’s the cost of not changing this?”"

/-- Default reflection template (`let reflection = ...`). -/
def defaultReflection : String :=
  "“Real change happens when we stop avoiding discomfort. Imagine climbing a mountain — the only way is up. What tough step are you avoiding?”"

/-- Warmth-led message template. -/
def warmthMsg : String :=
  "“I’m glad you’re here. Tell me more about what feels heavy for you right now.”"

/-- Warmth-led reflection template. -/
def warmthReflection : String :=
  "“Real change happens when we feel safe to be vulnerable. Think of planting seeds — growth takes time and care. What seed do you want to nurture this week?”"

/-- Directness-led message template. -/
def directnessMsg : String :=
  "“What’s holding you back? Be specific.”"

/-- Directness-led reflection template. -/
def directnessReflection : String :=
  "“Real change happens when excuses stop. Picture riding a bike — either you push the pedal, or you don’t move. What’s the first action you’ll take today?”"

/-- Message template selection: `if (wv >= 7 && wv > d) ... else if
(d >= 7 && d >= wv) ...` with the default template otherwise. -/
def commitMsgBase (d w : ℤ) : String :=
  if 7 ≤ w ∧ d < w then warmthMsg
  else if 7 ≤ d ∧ w ≤ d then directnessMsg
  else defaultMsg

/-- Reflection template selection, same branch structure. -/
def commitReflectionBase (d w : ℤ) : String :=
  if 7 ≤ w ∧ d < w then warmthReflection
  else if 7 ≤ d ∧ w ≤ d then directnessReflection
  else defaultReflection

/-- The confrontational suffix surgery
`msg.replace(/\?"$/, ' — and what will you do about it?"')`:
the regular expression matches the two-character suffix `?` followed by
the ASCII double quote, anchored at the end of the string, and replaces
it by the confrontational clause (which itself ends in that suffix). -/
def challengeTweak (msg : String) : String :=
  if msg.endsWith "?\"" then
    msg.dropRight 2 ++ " — and what will you do about it?\""
  else msg

/-- The committed message: template selection, then the challenge
surgery when `ch >= 8`. -/
def commitMsg (d w ch : ℤ) : String :=
  if 8 ≤ ch then challengeTweak (commitMsgBase d w) else commitMsgBase d w

/-- The committed reflection (never altered by the challenge branch). -/
def commitReflection (d w : ℤ) : String := commitReflectionBase d w

/-- Warmth-led demo sentence (template literal with ASCII apostrophes). -/
def warmthDemo : String :=
  "I\x27m glad you\x27re here. Tell me more about what feels heavy for you right now."

/-- Directness-led demo sentence. -/
def directnessDemo : String := "What\x27s holding you back? Be specific."

/-- Challenge-led demo sentence. -/
def challengeDemo : String := "Tell me about the feeling behind that choice."

/-- Default demo sentence. -/
def defaultDemo : String :=
  "Hi, I\x27m here to help you reflect. What if we explore what\x27s holding you back right now?"

/-- The independent demo selector `gen` (thresholds 7/7/7). -/
def demoGen (d w ch : ℤ) : String :=
  if 7 ≤ w ∧ d < w then warmthDemo
  else if 7 ≤ d ∧ w ≤ d then directnessDemo
  else if 7 ≤ ch then challengeDemo
  else defaultDemo

/-- C6: the message and reflection template is selected by priority:
warmth-led when warmth ≥ 7 and warmth > directness; otherwise
directness-led when directness ≥ 7 and directness ≥ warmth; otherwise
the neutral default template. -/
theorem commit_template_priority (d w : ℤ) :
    (7 ≤ w ∧ d < w →
      commitMsgBase d w = warmthMsg ∧ commitReflectionBase d w = warmthReflection) ∧
    (¬ (7 ≤ w ∧ d < w) → 7 ≤ d ∧ w ≤ d →
      commitMsgBase d w = directnessMsg ∧
        commitReflectionBase d w = directnessReflection) ∧
    (¬ (7 ≤ w ∧ d < w) → ¬ (7 ≤ d ∧ w ≤ d) →
      commitMsgBase d w = defaultMsg ∧
        commitReflectionBase d w = defaultReflection) := by
  refine ⟨fun h => ⟨?_, ?_⟩, fun hn h => ⟨?_, ?_⟩, fun hn hn2 => ⟨?_, ?_⟩⟩
  · unfold commitMsgBase; rw [if_pos h]
  · unfold commitReflectionBase; rw [if_pos h]
  · unfold commitMsgBase; rw [if_neg hn, if_pos h]
  · unfold commitReflectionBase; rw [if_neg hn, if_pos h]
  · unfold commitMsgBase; rw [if_neg hn, if_neg hn2]
  · unfold commitReflectionBase; rw [if_neg hn, if_neg hn2]

/-- C6 witness: at directness 5, warmth 8 the warmth-led branch fires;
at directness 9, warmth 2 the directness-led branch fires. -/
theorem commit_template_priority_witness :
    (commitMsgBase 5 8 = warmthMsg ∧ commitReflectionBase 5 8 = warmthReflection) ∧
    (commitMsgBase 9 2 = directnessMsg ∧
      commitReflectionBase 9 2 = directnessReflection) :=
  ⟨(commit_template_priority 5 8).1 ⟨by norm_num, by norm_num⟩,
    (commit_template_priority 9 2).2.1 (by norm_num) ⟨by norm_num, by norm_num⟩⟩

/-- C2 (code-bug evidence): at directness 9, warmth 2, challenge 9 the
directness-led template is selected and the demo selector picks its
directness-led sentence, but the challenge suffix surgery leaves the
message unchanged: the template ends with the typographic quotation
mark U+201D, so the pattern "question mark followed by an ASCII quote"
never matches and no confrontational clause is appended. -/
theorem commit_message_9_2_9 :
    commitMsgBase 9 2 = directnessMsg ∧
    commitMsg 9 2 9 = directnessMsg ∧
    directnessMsg.endsWith "?\"" = false ∧
    challengeTweak directnessMsg = directnessMsg ∧
    demoGen 9 2 9 = directnessDemo := by
  refine ⟨by decide, ?_, by decide, ?_, by decide⟩
  · unfold commitMsg
    rw [if_pos (by norm_num : (8:ℤ) ≤ 9)]
    have hb : commitMsgBase 9 2 = directnessMsg := by decide
    rw [hb]
    unfold challengeTweak
    rw [if_neg (by decide : ¬ directnessMsg.endsWith "?\"" = true)]
  · unfold challengeTweak
    rw [if_neg (by decide : ¬ directnessMsg.endsWith "?\"" = true)]

/-! ### Identity-step navigation (`goNext`, index.tsx lines 674-687)

The identity branch of `goNext` validates the active question before
incrementing the sub-index; a failed validation shows an alert and
returns without touching any state. Empty-ness checks go through the
JavaScript `.trim()`. -/

/-- Models the JavaScript `String.prototype.trim()` used by the
validation code: drop leading and trailing whitespace characters. -/
def jsTrim (s : String) : String :=
  String.mk (((s.data.dropWhile Char.isWhitespace).reverse.dropWhile
    Char.isWhitespace).reverse)

/-- The identity step's component state: sub-index plus the five
questions' answer fields (free text, capped multi-select with other,
two single-selects with other, unvalidated multi-select). -/
structure IdentityState where
  subIndex : ℕ
  q1Text : String
  q2Selections : List String
  q2OtherOpen : Bool
  q2OtherText : String
  q3Selection : Option String
  q3OtherOpen : Bool
  q3OtherText : String
  q4Selection : Option String
  q4OtherOpen : Bool
  q4OtherText : String
  q5Selections : List String
  q5OtherOpen : Bool
  q5OtherText : String
deriving DecidableEq

/-- Result of a `goNext()` call: a blocking notice with no state
change, an advance to a new sub-step state, or delegation to the
parent's next-step operation. -/
inductive GoNextResult (σ : Type) where
  | rejected (notice : String)
  | advanced (s : σ)
  | nextStep
deriving DecidableEq

/-- The identity branch of `goNext` (lines 674-687): `lastSub = 5`;
below it, the active question's validation predicate gates the
increment. Note that question 2 accepts other-text only together with
the open toggle, question 3 (`q3`) accepts bare other-text, and
question 4 (`q4`) again requires the open toggle. -/
def identityGoNext (st : IdentityState) : GoNextResult IdentityState :=
  if st.subIndex < 5 then
    if st.subIndex = 0 ∧ jsTrim st.q1Text = "" then
      .rejected "Please answer Q1 to continue"
    else if st.subIndex = 1 ∧ st.q2Selections.length = 0 ∧
        ¬ (st.q2OtherOpen = true ∧ jsTrim st.q2OtherText ≠ "") then
      .rejected "Please select at least one tone for Q2"
    else if st.subIndex = 2 ∧ st.q3Selection = none ∧ jsTrim st.q3OtherText = "" then
      .rejected "Please select or enter a phrase for Q3"
    else if st.subIndex = 3 ∧ st.q4Selection = none ∧
        ¬ (st.q4OtherOpen = true ∧ jsTrim st.q4OtherText ≠ "") then
      .rejected "Please select a phrase for Q4"
    else .advanced { st with subIndex := st.subIndex + 1 }
  else .nextStep

/-- The state after a `goNext()` call: only an advance changes it; a
rejection (or the delegation, which is handled by the parent) leaves
the component state untouched. -/
def applyGoNext (st : IdentityState) : IdentityState :=
  match identityGoNext st with
  | .advanced s => s
  | _ => st

/-- Initial identity state (the `useState` defaults). -/
def initialIdentityState : IdentityState :=
  { subIndex := 0, q1Text := "", q2Selections := [], q2OtherOpen := false,
    q2OtherText := "", q3Selection := none, q3OtherOpen := false,
    q3OtherText := "", q4Selection := none, q4OtherOpen := false,
    q4OtherText := "", q5Selections := [], q5OtherOpen := false,
    q5OtherText := "" }

/-- C7: a `goNext()` on the identity step at sub-index 0 with free text
that trims to empty is rejected with the blocking notice, and the whole
component state (sub-index and every answer field) is unchanged. -/
theorem identity_goNext_q1_empty_rejects (st : IdentityState)
    (h0 : st.subIndex = 0) (he : jsTrim st.q1Text = "") :
    identityGoNext st = .rejected "Please answer Q1 to continue" ∧
    applyGoNext st = st := by
  have hlt : st.subIndex < 5 := by rw [h0]; norm_num
  have heq : identityGoNext st = .rejected "Please answer Q1 to continue" := by
    unfold identityGoNext
    rw [if_pos hlt, if_pos ⟨h0, he⟩]
  refine ⟨heq, ?_⟩
  unfold applyGoNext
  rw [heq]

/-- C7 witness: the initial identity state has sub-index 0 and empty
free text, and `goNext` leaves it untouched. -/
theorem identity_goNext_q1_empty_rejects_witness :
    initialIdentityState.subIndex = 0 ∧ jsTrim initialIdentityState.q1Text = "" ∧
    (identityGoNext initialIdentityState =
        .rejected "Please answer Q1 to continue" ∧
      applyGoNext initialIdentityState = initialIdentityState) :=
  ⟨rfl, by decide, identity_goNext_q1_empty_rejects initialIdentityState rfl (by decide)⟩

/-- C5 (amended): at sub-index 3 (the never-use phrase question) the
transition advances if and only if a phrase is selected OR the other
toggle is OPEN and its text is non-empty after trimming; otherwise it
is rejected with the blocking notice. (The original claim omits the
open-toggle requirement: bare non-empty other-text with the toggle
closed is NOT accepted, unlike question 2 of the same step.) -/
theorem identity_goNext_q4_gate (st : IdentityState) (h3 : st.subIndex = 3) :
    (identityGoNext st = .advanced { st with subIndex := st.subIndex + 1 } ↔
      (st.q4Selection ≠ none ∨
        (st.q4OtherOpen = true ∧ jsTrim st.q4OtherText ≠ ""))) ∧
    (st.q4Selection = none ∧ ¬ (st.q4OtherOpen = true ∧ jsTrim st.q4OtherText ≠ "") →
      identityGoNext st = .rejected "Please select a phrase for Q4") := by
  have hlt : st.subIndex < 5 := by rw [h3]; norm_num
  have n0 : ¬ (st.subIndex = 0 ∧ jsTrim st.q1Text = "") := by rw [h3]; simp
  have n1 : ¬ (st.subIndex = 1 ∧ st.q2Selections.length = 0 ∧
      ¬ (st.q2OtherOpen = true ∧ jsTrim st.q2OtherText ≠ "")) := by rw [h3]; simp
  have n2 : ¬ (st.subIndex = 2 ∧ st.q3Selection = none ∧
      jsTrim st.q3OtherText = "") := by rw [h3]; simp
  by_cases hc : st.q4Selection = none ∧
      ¬ (st.q4OtherOpen = true ∧ jsTrim st.q4OtherText ≠ "")
  · have heq : identityGoNext st = .rejected "Please select a phrase for Q4" := by
      unfold identityGoNext
      rw [if_pos hlt, if_neg n0, if_neg n1, if_neg n2, if_pos ⟨h3, hc.1, hc.2⟩]
    refine ⟨?_, fun _ => heq⟩
    rw [heq]
    constructor
    · intro habs; exact GoNextResult.noConfusion habs
    · intro hr
      exfalso
      rcases hr with hne | hother
      · exact hne hc.1
      · exact hc.2 hother
  · have n3 : ¬ (st.subIndex = 3 ∧ st.q4Selection = none ∧
        ¬ (st.q4OtherOpen = true ∧ jsTrim st.q4OtherText ≠ "")) :=
      fun h => hc ⟨h.2.1, h.2.2⟩
    have heq : identityGoNext st = .advanced { st with subIndex := st.subIndex + 1 } := by
      unfold identityGoNext
      rw [if_pos hlt, if_neg n0, if_neg n1, if_neg n2, if_neg n3]
    refine ⟨?_, fun habs => absurd habs hc⟩
    rw [heq]
    constructor
    · intro _
      by_cases hsel : st.q4Selection = none
      · right
        by_contra hb
        exact hc ⟨hsel, hb⟩
      · exact Or.inl hsel
    · intro _; rfl

/-- C5 counterexample state: at sub-index 3 no phrase is selected, the
other toggle is closed, but the other text is non-empty (the toggle was
closed after typing; closing does not clear the text). -/
def q4OtherClosedState : IdentityState :=
  { initialIdentityState with
    subIndex := 3
    q1Text := "Very clear and practical"
    q2Selections := ["Direct", "Warm"]
    q3Selection := some "Tell me more"
    q4Selection := none
    q4OtherOpen := false
    q4OtherText := "Calm down" }

/-- C5 counterexample: the other text is non-empty after trimming and
no phrase is selected, so the original claim says the transition
advances; the code rejects it because the other toggle is closed. -/
theorem identity_goNext_q4_othertext_ignored :
    jsTrim q4OtherClosedState.q4OtherText ≠ "" ∧
    q4OtherClosedState.q4Selection = none ∧
    q4OtherClosedState.subIndex = 3 ∧
    identityGoNext q4OtherClosedState = .rejected "Please select a phrase for Q4" := by
  refine ⟨by decide, rfl, rfl, by decide⟩

/-- C5 witness: with a phrase selected at sub-index 3 the amended gate
accepts, and in the counterexample state it rejects; both follow from
the gate theorem applied at concrete states. -/
theorem identity_goNext_q4_gate_witness :
    q4OtherClosedState.subIndex = 3 ∧
    identityGoNext q4OtherClosedState = .rejected "Please select a phrase for Q4" :=
  ⟨rfl, (identity_goNext_q4_gate q4OtherClosedState rfl).2 ⟨rfl, by decide⟩⟩

/-! ### Panel-wide state, the reset effect and progress reporting

`StepPanel` keeps every step's answer fields in one component. The
effect at lines 542-596 runs whenever `step.id` changes and resets the
listed fields; the separate effect at lines 742-744 sets the intro flag
back to true. The progress effect (lines 599-654) reports the active
step's fraction, which `Home` clamps into [0,1] and records under the
active step id only (lines 1572-1580). -/

/-- Rows of the guardrails permission matrix (`guardQ3Rows`). -/
def guardQ3Rows : List String :=
  ["Check ins", "Homework", "Goal reminders", "Reflection prompts",
    "Celebrate progress", "Suggest resources", "Handle emotions", "Scheduling"]

/-- The whole `StepPanel` component state: sub-step cursor, intro flag,
every step's answer fields, the live and committed tone sliders, and
the preview feedback choice. -/
structure PanelState where
  subIndex : ℕ
  showIntro : Bool
  onboardingLang : Option String
  twinLang : Option String
  q1Text : String
  q2Selections : List String
  q2OtherOpen : Bool
  q2OtherText : String
  q3Selection : Option String
  q3OtherOpen : Bool
  q3OtherText : String
  q4Selection : Option String
  q4OtherOpen : Bool
  q4OtherText : String
  q5Selections : List String
  q5OtherOpen : Bool
  q5OtherText : String
  mQ1Selection : Option String
  mQ1OtherOpen : Bool
  mQ1OtherText : String
  mQ2Selection : Option String
  mQ2OtherOpen : Bool
  mQ2OtherText : String
  mQ3Selection : Option String
  mQ3OtherOpen : Bool
  mQ3OtherText : String
  exQ1Selection : Option String
  exQ1OtherOpen : Bool
  exQ1OtherText : String
  exQ2Selection : Option String
  exQ2OtherOpen : Bool
  exQ2OtherText : String
  exQ3Text : String
  gQ1Selections : List String
  gQ1OtherOpen : Bool
  gQ1OtherText : String
  gQ2Selection : Option String
  gQ2OtherOpen : Bool
  gQ2OtherText : String
  gQ3Map : List (String × Option String)
  previewRating : ℤ
  showAdvancedPreviewControls : Bool
  directness : ℤ
  warmth : ℤ
  challenge : ℤ
  commDirectness : ℤ
  commWarmth : ℤ
  commChallenge : ℤ
  selectedFeedbackChoice : Option String
deriving DecidableEq

/-- The `useState` defaults of `StepPanel`. -/
def initialPanelState : PanelState :=
  { subIndex := 0
    showIntro := true
    onboardingLang := none
    twinLang := none
    q1Text := ""
    q2Selections := []
    q2OtherOpen := false
    q2OtherText := ""
    q3Selection := none
    q3OtherOpen := false
    q3OtherText := ""
    q4Selection := none
    q4OtherOpen := false
    q4OtherText := ""
    q5Selections := []
    q5OtherOpen := false
    q5OtherText := ""
    mQ1Selection := none
    mQ1OtherOpen := false
    mQ1OtherText := ""
    mQ2Selection := none
    mQ2OtherOpen := false
    mQ2OtherText := ""
    mQ3Selection := none
    mQ3OtherOpen := false
    mQ3OtherText := ""
    exQ1Selection := none
    exQ1OtherOpen := false
    exQ1OtherText := ""
    exQ2Selection := none
    exQ2OtherOpen := false
    exQ2OtherText := ""
    exQ3Text := ""
    gQ1Selections := []
    gQ1OtherOpen := false
    gQ1OtherText := ""
    gQ2Selection := none
    gQ2OtherOpen := false
    gQ2OtherText := ""
    gQ3Map := guardQ3Rows.map (fun r => (r, none))
    previewRating := 5
    showAdvancedPreviewControls := false
    directness := 5
    warmth := 5
    challenge := 5
    commDirectness := 5
    commWarmth := 5
    commChallenge := 5
    selectedFeedbackChoice := none }

/-- The reset effect (lines 542-596) together with the intro effect
(lines 742-744); both run whenever the active step id changes. The
effect body never reads the entered step id (`_newStepId` is only the
trigger), so it clears the answer fields of every step, not just the
entering one; the committed tone values, the other-open toggle of
identity question 3 and the feedback fields are not in the reset
list and survive. -/
def resetOnStepChange (_newStepId : String) (st : PanelState) : PanelState :=
  { st with
    subIndex := 0
    showIntro := true
    onboardingLang := none
    twinLang := none
    q1Text := ""
    q2Selections := []
    q2OtherOpen := false
    q2OtherText := ""
    q3Selection := none
    q3OtherText := ""
    q4Selection := none
    q4OtherOpen := false
    q4OtherText := ""
    q5Selections := []
    q5OtherOpen := false
    q5OtherText := ""
    mQ1Selection := none
    mQ1OtherOpen := false
    mQ1OtherText := ""
    mQ2Selection := none
    mQ2OtherOpen := false
    mQ2OtherText := ""
    mQ3Selection := none
    mQ3OtherOpen := false
    mQ3OtherText := ""
    exQ1Selection := none
    exQ1OtherOpen := false
    exQ1OtherText := ""
    exQ2Selection := none
    exQ2OtherOpen := false
    exQ2OtherText := ""
    exQ3Text := ""
    gQ1Selections := []
    gQ1OtherOpen := false
    gQ1OtherText := ""
    gQ2Selection := none
    gQ2OtherOpen := false
    gQ2OtherText := ""
    gQ3Map := guardQ3Rows.map (fun r => (r, none))
    previewRating := 5
    showAdvancedPreviewControls := false
    directness := 5
    warmth := 5
    challenge := 5 }

/-- The clamp `Math.max(0, Math.min(1, p))` applied by `Home` before a
progress value is stored. -/
def clamp01 (p : ℚ) : ℚ := max 0 (min 1 p)

/-- `setStepProgress(prev => ({ ...prev, [id]: clamp }))`: the
ProgressMap is updated at the active step id only. -/
def updateStepProgress (m : String → Option ℚ) (stepId : String) (p : ℚ) :
    String → Option ℚ :=
  fun k => if k = stepId then some (clamp01 p) else m k

/-- C8 (amended): whenever the active step id changes, the reset sets
the sub-index to 0 and the intro flag to true and clears the answer
fields of EVERY step (the effect body is independent of which step is
entered), while the committed tone profile survives the reset and a
progress write under the active step id leaves the ProgressMap entry of
any other step unmodified. -/
theorem reset_on_step_change_spec (newStepId altStepId : String) (st : PanelState)
    (m : String → Option ℚ) (activeId otherId : String) (p : ℚ)
    (hne : otherId ≠ activeId) :
    (resetOnStepChange newStepId st).subIndex = 0 ∧
    (resetOnStepChange newStepId st).showIntro = true ∧
    (resetOnStepChange newStepId st).onboardingLang = none ∧
    (resetOnStepChange newStepId st).twinLang = none ∧
    (resetOnStepChange newStepId st).q1Text = "" ∧
    (resetOnStepChange newStepId st).q2Selections = [] ∧
    (resetOnStepChange newStepId st).q3Selection = none ∧
    (resetOnStepChange newStepId st).q4Selection = none ∧
    (resetOnStepChange newStepId st).q5Selections = [] ∧
    (resetOnStepChange newStepId st).mQ1Selection = none ∧
    (resetOnStepChange newStepId st).mQ2Selection = none ∧
    (resetOnStepChange newStepId st).mQ3Selection = none ∧
    (resetOnStepChange newStepId st).exQ1Selection = none ∧
    (resetOnStepChange newStepId st).exQ2Selection = none ∧
    (resetOnStepChange newStepId st).exQ3Text = "" ∧
    (resetOnStepChange newStepId st).gQ1Selections = [] ∧
    (resetOnStepChange newStepId st).gQ2Selection = none ∧
    (resetOnStepChange newStepId st).gQ3Map = guardQ3Rows.map (fun r => (r, none)) ∧
    (resetOnStepChange newStepId st).previewRating = 5 ∧
    (resetOnStepChange newStepId st).showAdvancedPreviewControls = false ∧
    (resetOnStepChange newStepId st).directness = 5 ∧
    (resetOnStepChange newStepId st).warmth = 5 ∧
    (resetOnStepChange newStepId st).challenge = 5 ∧
    (resetOnStepChange newStepId st).commDirectness = st.commDirectness ∧
    (resetOnStepChange newStepId st).commWarmth = st.commWarmth ∧
    (resetOnStepChange newStepId st).commChallenge = st.commChallenge ∧
    resetOnStepChange newStepId st = resetOnStepChange altStepId st ∧
    updateStepProgress m activeId p otherId = m otherId := by
  refine ⟨rfl, rfl, rfl, rfl, rfl, rfl, rfl, rfl, rfl, rfl, rfl, rfl, rfl, rfl,
    rfl, rfl, rfl, rfl, rfl, rfl, rfl, rfl, rfl, rfl, rfl, rfl, rfl, ?_⟩
  unfold updateStepProgress
  rw [if_neg hne]

/-- C8 witness: the amended statement at the concrete entry into the
identity step with a progress read of the language entry. -/
theorem reset_on_step_change_spec_witness :
    ("language" : String) ≠ "identity" ∧
    (resetOnStepChange "identity" initialPanelState).subIndex = 0 ∧
    updateStepProgress (fun _ => none) "identity" (1/2) "language" = none :=
  ⟨by decide,
    (reset_on_step_change_spec "identity" "method" initialPanelState
      (fun _ => none) "identity" "language" (1/2) (by decide)).1,
    (reset_on_step_change_spec "identity" "method" initialPanelState
      (fun _ => none) "identity" "language" (1/2) (by decide)).2.2.2.2.2.2.2.2.2.2.2.2.2.2.2.2.2.2.2.2.2.2.2.2.2.2.2⟩

/-- C8 counterexample state: the language step's two choices have been
made and the user is on its feedback sub-index. -/
def filledLanguageState : PanelState :=
  { initialPanelState with
    subIndex := 2
    onboardingLang := some "English"
    twinLang := some "Dutch" }

/-- C8 counterexample: entering the identity step clears the LANGUAGE
step's answers too — the claim that other steps' answer state is left
unmodified is false. -/
theorem reset_clears_other_steps :
    filledLanguageState.onboardingLang = some "English" ∧
    (resetOnStepChange "identity" filledLanguageState).onboardingLang = none ∧
    (resetOnStepChange "identity" filledLanguageState).onboardingLang ≠
      filledLanguageState.onboardingLang := by
  refine ⟨rfl, rfl, by decide⟩

/-- The click handler of the preview feedback "Not quite, tweak it"
button (index.tsx line 1341): record the choice, return to sub-index 0
and force the advanced slider controls visible. -/
def previewTweakClick (st : PanelState) : PanelState :=
  { st with
    selectedFeedbackChoice := some "tweak"
    subIndex := 0
    showAdvancedPreviewControls := true }

/-- C9: from the preview feedback sub-index (1), choosing "tweak it"
returns to sub-index 0 with the advanced slider controls forced
visible, and the committed ToneProfile (commDirectness, commWarmth,
commChallenge) is unchanged. -/
theorem preview_tweak_back_to_sliders (st : PanelState) (_h : st.subIndex = 1) :
    (previewTweakClick st).subIndex = 0 ∧
    (previewTweakClick st).showAdvancedPreviewControls = true ∧
    (previewTweakClick st).selectedFeedbackChoice = some "tweak" ∧
    (previewTweakClick st).commDirectness = st.commDirectness ∧
    (previewTweakClick st).commWarmth = st.commWarmth ∧
    (previewTweakClick st).commChallenge = st.commChallenge :=
  ⟨rfl, rfl, rfl, rfl, rfl, rfl⟩

/-- Concrete preview state on the feedback sub-index with a committed
tone profile different from the defaults. -/
def previewFeedbackState : PanelState :=
  { initialPanelState with
    subIndex := 1
    commDirectness := 9
    commWarmth := 2
    commChallenge := 9 }

/-- C9 witness: the tweak click applied at the concrete feedback
state. -/
theorem preview_tweak_back_to_sliders_witness :
    previewFeedbackState.subIndex = 1 ∧
    ((previewTweakClick previewFeedbackState).subIndex = 0 ∧
      (previewTweakClick previewFeedbackState).showAdvancedPreviewControls = true ∧
      (previewTweakClick previewFeedbackState).selectedFeedbackChoice = some "tweak" ∧
      (previewTweakClick previewFeedbackState).commDirectness =
        previewFeedbackState.commDirectness ∧
      (previewTweakClick previewFeedbackState).commWarmth =
        previewFeedbackState.commWarmth ∧
      (previewTweakClick previewFeedbackState).commChallenge =
        previewFeedbackState.commChallenge) :=
  ⟨rfl, preview_tweak_back_to_sliders previewFeedbackState rfl⟩

/-! ### Language-step progress (progress effect, index.tsx lines 599-654) -/

/-- The language branch of the progress effect:
`answered = Math.max(0, Math.min(2, subIndex)); answered / 2`. -/
def languageProgress (st : PanelState) : ℚ :=
  ((max 0 (min 2 st.subIndex) : ℕ) : ℚ) / 2

/-- Modelled from the spec words of claim C1, for comparison with the
source formula: the fraction of the two language choices actually made
(0, 0.5, or 1 depending on how many of the two choices are set). -/
def languageChoicesFraction (st : PanelState) : ℚ :=
  (((if st.onboardingLang.isSome then 1 else 0) +
    (if st.twinLang.isSome then 1 else 0) : ℕ) : ℚ) / 2

/-- C1 (amended): the language progress is `min(2, subIndex) / 2` — it
depends only on the sub-index (0 at sub-index 0, 1/2 at 1, 1 from 2 on)
and not on which language choices are set, and it always lies in
[0, 1]. -/
theorem language_progress_from_subindex (st : PanelState) (l t : Option String) :
    languageProgress { st with onboardingLang := l, twinLang := t } =
      languageProgress st ∧
    (st.subIndex = 0 → languageProgress st = 0) ∧
    (st.subIndex = 1 → languageProgress st = 1/2) ∧
    (2 ≤ st.subIndex → languageProgress st = 1) ∧
    0 ≤ languageProgress st ∧ languageProgress st ≤ 1 := by
  refine ⟨rfl, ?_, ?_, ?_, ?_, ?_⟩
  · intro h; unfold languageProgress; rw [h]; norm_num
  · intro h; unfold languageProgress; rw [h]; norm_num
  · intro h
    unfold languageProgress
    rw [min_eq_left h]
    norm_num
  · unfold languageProgress
    positivity
  · unfold languageProgress
    have hle : max 0 (min 2 st.subIndex) ≤ 2 := by omega
    have h2 : ((max 0 (min 2 st.subIndex) : ℕ) : ℚ) ≤ 2 := by exact_mod_cast hle
    linarith

/-- C1 witness: the amended statement at the concrete state with the
onboarding choice set and sub-index 0. -/
theorem language_progress_from_subindex_witness :
    languageProgress
        { initialPanelState with onboardingLang := some "English", twinLang := none } =
      languageProgress initialPanelState ∧
    (initialPanelState.subIndex = 0 → languageProgress initialPanelState = 0) ∧
    (initialPanelState.subIndex = 1 → languageProgress initialPanelState = 1/2) ∧
    (2 ≤ initialPanelState.subIndex → languageProgress initialPanelState = 1) ∧
    0 ≤ languageProgress initialPanelState ∧
      languageProgress initialPanelState ≤ 1 :=
  language_progress_from_subindex initialPanelState (some "English") none

/-- C1 counterexample state: the onboarding language has been chosen but
the user is still on sub-index 0 (Next not yet pressed). -/
def langChoiceMadeState : PanelState :=
  { initialPanelState with onboardingLang := some "English" }

/-- C1 counterexample: one of the two language choices is made, so the
claimed choice-fraction is 1/2, but the code reports 0 because the
sub-index is still 0: the Progress Calculator does not return the
fraction of choices made for every combination of choice state and
sub-index. -/
theorem language_progress_not_choice_fraction :
    langChoiceMadeState.onboardingLang.isSome = true ∧
    langChoiceMadeState.subIndex = 0 ∧
    languageProgress langChoiceMadeState = 0 ∧
    languageChoicesFraction langChoiceMadeState = 1/2 ∧
    languageProgress langChoiceMadeState ≠
      languageChoicesFraction langChoiceMadeState := by
  refine ⟨rfl, rfl, ?_, ?_, ?_⟩ <;>
    norm_num [languageProgress, languageChoicesFraction, langChoiceMadeState,
      initialPanelState]
